import Mathlib

/-!
Verification of the vehicle kinematics and track-adherence module of
`autonomous.py`. The Panda3D engine state touched by the program (the car
node's position and heading, the control fields on the application object)
is collected into a single `VehicleState` record; each method of
`AutonomousCar` that the claims concern is translated to a state-passing
function over that record. Real numbers stand in for Python floats;
`pyInt` models the truncation toward zero performed by Python's `int`.
-/

namespace AutonomousCar

/-- The mutable vehicle state: car position (x, y), heading in degrees,
and the control fields of the application object. -/
structure VehicleState where
  posX : ℝ
  posY : ℝ
  heading : ℝ
  speed : ℝ
  steeringAngle : ℝ
  manualMode : Bool
  autonomousCorrection : ℝ

/-- `self.max_forward_speed = 20`. -/
def maxForwardSpeed : ℝ := 20

/-- `self.max_reverse_speed = -10`. -/
def maxReverseSpeed : ℝ := -10

/-- `self.acceleration_rate = 0.2`. -/
def accelerationRate : ℝ := 0.2

/-- `self.autonomous_speed = 10`. -/
def autonomousSpeed : ℝ := 10

/-- State after `__init__`: `car.setPos(-3, 8, 0.05)`, `car.setH(90)`,
`speed = 0`, `steering_angle = 0`, `manual_mode = True`,
`autonomous_steering_correction = 0`. -/
def initialState : VehicleState :=
  { posX := -3
    posY := 8
    heading := 90
    speed := 0
    steeringAngle := 0
    manualMode := true
    autonomousCorrection := 0 }

/-- The texture sampling capability: `PNMImage` sizes and per-pixel
channel reads (`getRed`, `getGreen`, `getBlue`). -/
structure TrackSampler where
  xSize : ℕ
  ySize : ℕ
  getRed : ℤ → ℤ → ℝ
  getGreen : ℤ → ℤ → ℝ
  getBlue : ℤ → ℤ → ℝ

/-- `math.radians`: degrees to radians. -/
noncomputable def radians (d : ℝ) : ℝ := d * (Real.pi / 180)

/-- Python `int()` applied to a float: truncation toward zero
(floor for nonnegative arguments, ceiling for negative ones). -/
noncomputable def pyInt (r : ℝ) : ℤ := if 0 ≤ r then ⌊r⌋ else ⌈r⌉

/-- `accelerate(self, increment)`: in manual mode, add
`increment * acceleration_rate` to the speed and clamp it to
`[max_reverse_speed, max_forward_speed]`; otherwise do nothing. -/
noncomputable def accelerate (increment : ℝ) (s : VehicleState) : VehicleState :=
  if s.manualMode then
    let speed1 := s.speed + increment * accelerationRate
    { s with speed := max maxReverseSpeed (min speed1 maxForwardSpeed) }
  else s

/-- `stop_accelerate(self)`: unconditionally set the speed to 0. -/
def stop_accelerate (s : VehicleState) : VehicleState :=
  { s with speed := 0 }

/-- `steer(self, direction)`: only in manual mode and with nonzero speed,
set the steering angle to `direction * 15`. -/
noncomputable def steer (direction : ℝ) (s : VehicleState) : VehicleState :=
  if s.manualMode = true ∧ s.speed ≠ 0 then
    { s with steeringAngle := direction * 15 }
  else s

/-- `stop_turn(self)`: unconditionally reset the steering angle to 0. -/
def stop_turn (s : VehicleState) : VehicleState :=
  { s with steeringAngle := 0 }

/-- `toggle_mode(self)`: flip the mode flag; if the new mode is
autonomous, reset speed, steering angle and steering correction. -/
def toggle_mode (s : VehicleState) : VehicleState :=
  let s1 := { s with manualMode := !s.manualMode }
  if !s1.manualMode then
    { s1 with speed := 0, steeringAngle := 0, autonomousCorrection := 0 }
  else s1

/-- The manual branch of `update_car` (lines 112-117): advance the heading
by `steering_angle * dt`, then translate the position using the updated
heading. -/
noncomputable def manual_step (dt : ℝ) (s : VehicleState) : VehicleState :=
  let heading := s.heading + s.steeringAngle * dt
  let dx := -Real.sin (radians heading) * s.speed * dt
  let dy := Real.cos (radians heading) * s.speed * dt
  { s with heading := heading, posX := s.posX + dx, posY := s.posY + dy }

/-- `run_autonomous_logic(self, dt)`: advance the heading by the steering
correction (no `dt` scaling), then translate the position at the fixed
`autonomous_speed` using the updated heading. -/
noncomputable def run_autonomous_logic (dt : ℝ) (s : VehicleState) : VehicleState :=
  let heading := s.heading + s.autonomousCorrection
  let dx := -Real.sin (radians heading) * autonomousSpeed * dt
  let dy := Real.cos (radians heading) * autonomousSpeed * dt
  { s with heading := heading, posX := s.posX + dx, posY := s.posY + dy }

/-- The texture u-coordinate computed by `is_car_on_track`:
`int((car_x + 10) * (xSize / 20))`. -/
noncomputable def texU (tex : TrackSampler) (x : ℝ) : ℤ :=
  pyInt ((x + 10) * ((tex.xSize : ℝ) / 20))

/-- The texture v-coordinate computed by `is_car_on_track`:
`int((car_y + 10) * (ySize / 20))`. -/
noncomputable def texV (tex : TrackSampler) (y : ℝ) : ℤ :=
  pyInt ((y + 10) * ((tex.ySize : ℝ) / 20))

/-- `is_car_on_track(self)`: with no texture loaded, report on-track.
Otherwise map the car position to texture coordinates; inside the texture
bounds report on-track exactly when all three channels are below 10, and
outside the bounds report off-track. The method only reads the state, so
it is returned unchanged alongside the classification. -/
noncomputable def is_car_on_track (mapTexture : Option TrackSampler)
    (s : VehicleState) : Bool × VehicleState :=
  match mapTexture with
  | none => (true, s)
  | some tex =>
    let u := texU tex s.posX
    let v := texV tex s.posY
    if 0 ≤ u ∧ u < (tex.xSize : ℤ) ∧ 0 ≤ v ∧ v < (tex.ySize : ℤ) then
      let r := tex.getRed u v
      let g := tex.getGreen u v
      let b := tex.getBlue u v
      (decide (r < 10 ∧ g < 10 ∧ b < 10), s)
    else (false, s)

/-- `check_boundaries(self)`: the four sequential boundary clamps on the
car position. -/
noncomputable def check_boundaries (s : VehicleState) : VehicleState :=
  let s1 := if s.posX < -50 then { s with posX := -50 } else s
  let s2 := if s1.posX > 50 then { s1 with posX := 50 } else s1
  let s3 := if s2.posY < -50 then { s2 with posY := -50 } else s2
  if s3.posY > 50 then { s3 with posY := 50 } else s3

/-- `update_car(self, task)`: one simulation tick. Integrate motion
according to the mode, then run the track check, set the steering
correction on an off-track classification, and clamp to the map
boundaries. -/
noncomputable def update_car (dt : ℝ) (mapTexture : Option TrackSampler)
    (s : VehicleState) : VehicleState :=
  let s1 := if s.manualMode then manual_step dt s else run_autonomous_logic dt s
  let p := is_car_on_track mapTexture s1
  let s2 :=
    if !p.1 then
      { p.2 with autonomousCorrection := if p.2.posX < 0 then 1 else -1 }
    else p.2
  check_boundaries s2

/-- One control operation or tick, as dispatched by the key bindings and
the task manager. -/
inductive Op where
  | accelerate (increment : ℝ)
  | stopAccelerate
  | steer (direction : ℝ)
  | stopTurn
  | toggleMode
  | tick (dt : ℝ) (mapTexture : Option TrackSampler)

/-- Apply one operation to the state. -/
noncomputable def applyOp (op : Op) (s : VehicleState) : VehicleState :=
  match op with
  | Op.accelerate increment => accelerate increment s
  | Op.stopAccelerate => stop_accelerate s
  | Op.steer direction => steer direction s
  | Op.stopTurn => stop_turn s
  | Op.toggleMode => toggle_mode s
  | Op.tick dt mapTexture => update_car dt mapTexture s

/-- Run a sequence of operations from a state. -/
noncomputable def runOps (ops : List Op) (s : VehicleState) : VehicleState :=
  ops.foldl (fun st op => applyOp op st) s

end AutonomousCar

namespace AutonomousCar

lemma check_boundaries_speed (s : VehicleState) : (check_boundaries s).speed = s.speed := by
  simp only [check_boundaries]
  split_ifs <;> rfl

lemma check_boundaries_heading (s : VehicleState) : (check_boundaries s).heading = s.heading := by
  simp only [check_boundaries]
  split_ifs <;> rfl

lemma check_boundaries_corr (s : VehicleState) :
    (check_boundaries s).autonomousCorrection = s.autonomousCorrection := by
  simp only [check_boundaries]
  split_ifs <;> rfl

lemma is_car_on_track_snd (mapTexture : Option TrackSampler) (s : VehicleState) :
    (is_car_on_track mapTexture s).2 = s := by
  cases mapTexture with
  | none => rfl
  | some tex =>
    simp only [is_car_on_track]
    split_ifs <;> rfl

lemma check_boundaries_posX_bounds (s : VehicleState) :
    -50 ≤ (check_boundaries s).posX ∧ (check_boundaries s).posX ≤ 50 := by
  simp only [check_boundaries]
  split_ifs <;> constructor <;> simp_all

lemma check_boundaries_posY_bounds (s : VehicleState) :
    -50 ≤ (check_boundaries s).posY ∧ (check_boundaries s).posY ≤ 50 := by
  simp only [check_boundaries]
  split_ifs <;> constructor <;> simp_all

lemma manual_step_speed (dt : ℝ) (s : VehicleState) : (manual_step dt s).speed = s.speed := rfl

lemma run_autonomous_logic_speed (dt : ℝ) (s : VehicleState) :
    (run_autonomous_logic dt s).speed = s.speed := rfl

lemma update_car_speed (dt : ℝ) (mapTexture : Option TrackSampler) (s : VehicleState) :
    (update_car dt mapTexture s).speed = s.speed := by
  simp only [update_car]
  rw [check_boundaries_speed]
  split_ifs <;> simp only [is_car_on_track_snd] <;> rfl

lemma update_car_heading (dt : ℝ) (mapTexture : Option TrackSampler) (s : VehicleState) :
    (update_car dt mapTexture s).heading =
      if s.manualMode then s.heading + s.steeringAngle * dt
      else s.heading + s.autonomousCorrection := by
  simp only [update_car]
  rw [check_boundaries_heading]
  split_ifs <;> simp only [is_car_on_track_snd] <;> rfl

end AutonomousCar

namespace AutonomousCar

/-- Claim C2: after every tick, in either mode, both position coordinates
lie within the interval from -50 to 50, because the boundary clamp runs
unconditionally at the end of each tick. -/
theorem position_clamp_after_tick (dt : ℝ) (mapTexture : Option TrackSampler)
    (s : VehicleState) :
    -50 ≤ (update_car dt mapTexture s).posX ∧ (update_car dt mapTexture s).posX ≤ 50 ∧
    -50 ≤ (update_car dt mapTexture s).posY ∧ (update_car dt mapTexture s).posY ≤ 50 := by
  simp only [update_car]
  exact ⟨(check_boundaries_posX_bounds _).1, (check_boundaries_posX_bounds _).2,
    (check_boundaries_posY_bounds _).1, (check_boundaries_posY_bounds _).2⟩

/-- Claim C10: the track-adherence check is read-only: it returns the
vehicle state unchanged in every case, and only classifies. -/
theorem is_car_on_track_readonly (mapTexture : Option TrackSampler) (s : VehicleState) :
    (is_car_on_track mapTexture s).2 = s := by
  cases mapTexture with
  | none => rfl
  | some tex =>
    simp only [is_car_on_track]
    split_ifs <;> rfl

/-- Claim C4: toggling the mode from manual to autonomous resets speed,
steering angle and steering correction regardless of their prior values;
toggling from autonomous to manual changes only the mode flag. -/
theorem toggle_mode_reset (s : VehicleState) :
    (s.manualMode = true →
      toggle_mode s = { s with manualMode := false, speed := 0, steeringAngle := 0,
                               autonomousCorrection := 0 }) ∧
    (s.manualMode = false → toggle_mode s = { s with manualMode := true }) := by
  constructor <;> intro h <;> simp [toggle_mode, h]

/-- Witness for the mode-reset theorem at the initial state and at the
state obtained from it by one toggle. -/
theorem toggle_mode_reset_witness :
    toggle_mode initialState =
      { initialState with manualMode := false, speed := 0, steeringAngle := 0,
                          autonomousCorrection := 0 } ∧
    toggle_mode (toggle_mode initialState) =
      { toggle_mode initialState with manualMode := true } :=
  ⟨(toggle_mode_reset initialState).1 rfl,
   (toggle_mode_reset (toggle_mode initialState)).2 rfl⟩

/-- Claim C9: steering only takes effect in manual mode with nonzero
speed, in which case the steering angle becomes the direction times 15;
otherwise the call leaves the state unchanged. -/
theorem steer_gating (d : ℝ) (s : VehicleState) :
    (s.manualMode = true → s.speed ≠ 0 →
      steer d s = { s with steeringAngle := d * 15 }) ∧
    (s.manualMode = false → steer d s = s) ∧
    (s.speed = 0 → steer d s = s) := by
  refine ⟨fun h1 h2 => ?_, fun h => ?_, fun h => ?_⟩
  · simp [steer, h1, h2]
  · simp [steer, h]
  · simp [steer, h]

/-- Witness for the steer-gating theorem: an effective steer at a moving
manual-mode state, and a no-op steer at the zero-speed initial state. -/
theorem steer_gating_witness :
    steer 2 { initialState with speed := 1 } =
      { initialState with speed := 1, steeringAngle := 2 * 15 } ∧
    steer 2 initialState = initialState :=
  ⟨(steer_gating 2 { initialState with speed := 1 }).1 rfl one_ne_zero,
   (steer_gating 2 initialState).2.2 rfl⟩

end AutonomousCar

namespace AutonomousCar

/-- Claim C5: a manual tick advances the heading by the steering angle
times dt and then translates the position using the already-updated
heading; with heading 0, speed 10, zero steering and dt 1 the position
moves by exactly (0, 10). -/
theorem manual_integrator_order (dt : ℝ) (mapTexture : Option TrackSampler)
    (s : VehicleState) :
    (manual_step dt s).heading = s.heading + s.steeringAngle * dt ∧
    (manual_step dt s).posX =
      s.posX + -Real.sin (radians (s.heading + s.steeringAngle * dt)) * s.speed * dt ∧
    (manual_step dt s).posY =
      s.posY + Real.cos (radians (s.heading + s.steeringAngle * dt)) * s.speed * dt ∧
    (s.manualMode = true →
      (update_car dt mapTexture s).heading = s.heading + s.steeringAngle * dt) ∧
    (s.heading = 0 → s.speed = 10 → s.steeringAngle = 0 → dt = 1 →
      (manual_step dt s).posX = s.posX ∧ (manual_step dt s).posY = s.posY + 10) := by
  refine ⟨rfl, rfl, rfl, fun h => ?_, fun h0 h10 hst hdt => ?_⟩
  · rw [update_car_heading]
    simp [h]
  · constructor <;> simp [manual_step, radians, h0, h10, hst, hdt]

/-- Witness for the manual integrator theorem at heading 0, speed 10,
zero steering, dt 1, from a manual-mode state. -/
theorem manual_integrator_order_witness :
    (manual_step 1 { initialState with heading := 0, speed := 10 }).posY =
      ({ initialState with heading := 0, speed := 10 } : VehicleState).posY + 10 ∧
    (update_car 1 none { initialState with heading := 0, speed := 10 }).heading =
      ({ initialState with heading := 0, speed := 10 } : VehicleState).heading +
        ({ initialState with heading := 0, speed := 10 } : VehicleState).steeringAngle * 1 :=
  ⟨((manual_integrator_order 1 none
      { initialState with heading := 0, speed := 10 }).2.2.2.2 rfl rfl rfl rfl).2,
   (manual_integrator_order 1 none
      { initialState with heading := 0, speed := 10 }).2.2.2.1 rfl⟩

/-- Claim C6: an autonomous tick advances the heading by the steering
correction with no dt scaling, keeps the speed field untouched, and
translates the position at the fixed autonomous speed 10 using the
updated heading, independently of the speed field. -/
theorem autonomous_tick_shape (dt : ℝ) (mapTexture : Option TrackSampler)
    (s : VehicleState) :
    (run_autonomous_logic dt s).heading = s.heading + s.autonomousCorrection ∧
    (run_autonomous_logic dt s).posX =
      s.posX + -Real.sin (radians (s.heading + s.autonomousCorrection)) *
        autonomousSpeed * dt ∧
    (run_autonomous_logic dt s).posY =
      s.posY + Real.cos (radians (s.heading + s.autonomousCorrection)) *
        autonomousSpeed * dt ∧
    autonomousSpeed = 10 ∧
    (run_autonomous_logic dt s).speed = s.speed ∧
    (s.manualMode = false →
      (update_car dt mapTexture s).heading = s.heading + s.autonomousCorrection) := by
  refine ⟨rfl, rfl, rfl, rfl, rfl, fun h => ?_⟩
  rw [update_car_heading]
  simp [h]

/-- Witness for the autonomous tick theorem at the state reached from the
initial state by one mode toggle. -/
theorem autonomous_tick_shape_witness :
    (update_car 1 none (toggle_mode initialState)).heading =
      (toggle_mode initialState).heading +
        (toggle_mode initialState).autonomousCorrection :=
  (autonomous_tick_shape 1 none (toggle_mode initialState)).2.2.2.2.2 rfl

/-- Claim C7: in both modes, a tick whose post-integration position is
classified off-track sets the steering correction to 1 when the
post-integration x-coordinate is negative and to -1 otherwise, while a
tick classified on-track leaves the correction unchanged. -/
theorem offtrack_correction_rule (dt : ℝ) (mapTexture : Option TrackSampler)
    (s : VehicleState) :
    (update_car dt mapTexture s).autonomousCorrection =
      if (is_car_on_track mapTexture
            (if s.manualMode then manual_step dt s else run_autonomous_logic dt s)).1 then
        s.autonomousCorrection
      else
        if (if s.manualMode then manual_step dt s
            else run_autonomous_logic dt s).posX < 0 then 1 else -1 := by
  simp only [update_car]
  rw [check_boundaries_corr]
  cases h : (is_car_on_track mapTexture
      (if s.manualMode then manual_step dt s else run_autonomous_logic dt s)).1 with
  | false => simp [h, is_car_on_track_snd]
  | true =>
    simp only [h, Bool.not_true, Bool.false_eq_true, if_false, if_true,
      is_car_on_track_snd]
    cases hm : s.manualMode <;> simp [hm] <;> rfl

end AutonomousCar

namespace AutonomousCar

/-- The speed invariant: the speed lies between the reverse and forward
limits. -/
def speedInRange (s : VehicleState) : Prop :=
  -10 ≤ s.speed ∧ s.speed ≤ 20

lemma clamp_speed_bounds (x : ℝ) :
    -10 ≤ max maxReverseSpeed (min x maxForwardSpeed) ∧
    max maxReverseSpeed (min x maxForwardSpeed) ≤ 20 := by
  constructor
  · exact le_max_of_le_left (by norm_num [maxReverseSpeed])
  · exact max_le (by norm_num [maxReverseSpeed])
      ((min_le_right _ _).trans (by norm_num [maxForwardSpeed]))

lemma applyOp_speedInRange (op : Op) (s : VehicleState) (h : speedInRange s) :
    speedInRange (applyOp op s) := by
  cases op with
  | accelerate increment =>
    simp only [applyOp, accelerate]
    split_ifs
    · exact clamp_speed_bounds _
    · exact h
  | stopAccelerate =>
    constructor <;> norm_num [applyOp, stop_accelerate, speedInRange]
  | steer direction =>
    simp only [applyOp, steer]
    split_ifs
    · exact h
    · exact h
  | stopTurn => exact h
  | toggleMode =>
    simp only [applyOp, toggle_mode]
    split_ifs
    · constructor <;> norm_num [speedInRange]
    · exact h
  | tick dt mapTexture =>
    unfold speedInRange at h ⊢
    simp only [applyOp]
    rw [update_car_speed]
    exact h

lemma runOps_speedInRange (ops : List Op) (s : VehicleState) (h : speedInRange s) :
    speedInRange (runOps ops s) := by
  induction ops generalizing s with
  | nil => exact h
  | cons op rest ih =>
    simp only [runOps, List.foldl] at ih ⊢
    exact ih (applyOp op s) (applyOp_speedInRange op s h)

/-- Claim C1 (amended): from the initial state, every sequence of control
operations and ticks keeps the speed within the interval from -10 to 20;
in manual mode an accelerate call sets the speed to the clamped value,
while in autonomous mode it is a no-op. -/
theorem speed_clamp_invariant (ops : List Op) (delta : ℝ) (s : VehicleState) :
    (maxReverseSpeed = -10 ∧ maxForwardSpeed = 20) ∧
    (-10 ≤ (runOps ops initialState).speed ∧ (runOps ops initialState).speed ≤ 20) ∧
    (s.manualMode = true →
      (accelerate delta s).speed =
        max maxReverseSpeed (min (s.speed + delta * accelerationRate) maxForwardSpeed)) ∧
    (s.manualMode = false → accelerate delta s = s) := by
  refine ⟨⟨rfl, rfl⟩,
    runOps_speedInRange ops initialState ⟨by norm_num [initialState], by norm_num [initialState]⟩,
    fun h => ?_, fun h => ?_⟩
  · simp [accelerate, h]
  · simp [accelerate, h]

/-- Witness for the speed-clamp theorem: an accelerate call from the
manual initial state, and a no-op accelerate after toggling to
autonomous mode. -/
theorem speed_clamp_invariant_witness :
    (accelerate 1 initialState).speed =
      max maxReverseSpeed (min (initialState.speed + 1 * accelerationRate)
        maxForwardSpeed) ∧
    accelerate 1 (toggle_mode initialState) = toggle_mode initialState :=
  ⟨(speed_clamp_invariant [] 1 initialState).2.2.1 rfl,
   (speed_clamp_invariant [] 1 (toggle_mode initialState)).2.2.2 rfl⟩

/-- Counterexample to claim C1 as stated: after toggling to autonomous
mode, an accelerate call leaves the speed at 0 instead of setting it to
the clamped value 1/5 required by the claimed unconditional formula. -/
theorem speed_clamp_counterexample :
    (runOps [Op.toggleMode, Op.accelerate 1] initialState).speed = 0 ∧
    max maxReverseSpeed
      (min ((runOps [Op.toggleMode] initialState).speed + 1 * accelerationRate)
        maxForwardSpeed) = 1/5 := by
  constructor
  · simp [runOps, applyOp, accelerate, toggle_mode, initialState]
  · simp [runOps, applyOp, toggle_mode, initialState, maxReverseSpeed,
      maxForwardSpeed, accelerationRate]
    norm_num

end AutonomousCar

namespace AutonomousCar

/-- Claim C8: with no sampler loaded the track check reports on-track for
every state; with a sampler and in-bounds texture coordinates it reports
on-track exactly when all three channels are below the threshold 10. -/
theorem track_check_fail_open :
    (∀ s : VehicleState, (is_car_on_track none s).1 = true) ∧
    ∀ (tex : TrackSampler) (s : VehicleState),
      0 ≤ texU tex s.posX → texU tex s.posX < (tex.xSize : ℤ) →
      0 ≤ texV tex s.posY → texV tex s.posY < (tex.ySize : ℤ) →
      ((is_car_on_track (some tex) s).1 = true ↔
        tex.getRed (texU tex s.posX) (texV tex s.posY) < 10 ∧
        tex.getGreen (texU tex s.posX) (texV tex s.posY) < 10 ∧
        tex.getBlue (texU tex s.posX) (texV tex s.posY) < 10) := by
  refine ⟨fun s => rfl, fun tex s h1 h2 h3 h4 => ?_⟩
  simp only [is_car_on_track]
  rw [if_pos ⟨h1, h2, h3, h4⟩]
  simp [decide_eq_true_eq]

/-- A 20-by-20 sampler whose pixels are all black, used as a concrete
instance. -/
def blackTex : TrackSampler :=
  ⟨20, 20, fun _ _ => 0, fun _ _ => 0, fun _ _ => 0⟩

lemma texU_blackTex_origin :
    texU blackTex ({ initialState with posX := 0, posY := 0 } : VehicleState).posX = 10 := by
  simp only [texU, pyInt, blackTex]
  norm_num

lemma texV_blackTex_origin :
    texV blackTex ({ initialState with posX := 0, posY := 0 } : VehicleState).posY = 10 := by
  simp only [texV, pyInt, blackTex]
  norm_num

/-- Witness for the fail-open theorem: the missing-sampler case at the
initial state, and the in-bounds case on the all-black sampler at the
origin. -/
theorem track_check_fail_open_witness :
    (is_car_on_track none initialState).1 = true ∧
    ((is_car_on_track (some blackTex)
        { initialState with posX := 0, posY := 0 }).1 = true ↔
      blackTex.getRed (texU blackTex 0) (texV blackTex 0) < 10 ∧
      blackTex.getGreen (texU blackTex 0) (texV blackTex 0) < 10 ∧
      blackTex.getBlue (texU blackTex 0) (texV blackTex 0) < 10) :=
  ⟨track_check_fail_open.1 initialState,
   track_check_fail_open.2 blackTex { initialState with posX := 0, posY := 0 }
     (by rw [texU_blackTex_origin]; norm_num)
     (by rw [texU_blackTex_origin]; norm_num [blackTex])
     (by rw [texV_blackTex_origin]; norm_num)
     (by rw [texV_blackTex_origin]; norm_num [blackTex])⟩

end AutonomousCar

namespace AutonomousCar

/-- The u-coordinate as the specification words it (section 4.5): a floor
of the remapped world coordinate, written here only for comparison with
the truncation the code performs. -/
noncomputable def spec_texU (x : ℝ) (textureWidth : ℕ) : ℤ :=
  ⌊(x + 10) * (textureWidth : ℝ) / 20⌋

/-- Counterexample to claim C3 as stated: at x = -21/2 on the 20-by-20
all-black sampler the floor mapping of the claim gives u = -1, which the
claim classifies off-track independent of pixel content, but the code
truncates toward zero, lands at u = 0, samples the black pixel and
classifies the position on-track. -/
theorem track_floor_counterexample :
    spec_texU (-21/2) 20 = -1 ∧
    texU blackTex (-21/2) = 0 ∧
    (is_car_on_track (some blackTex)
      { initialState with posX := -21/2, posY := 0 }).1 = true := by
  refine ⟨?_, ?_, ?_⟩
  · simp only [spec_texU]
    norm_num
  · simp only [texU, pyInt, blackTex]
    norm_num
  · have hu : texU blackTex
        ({ initialState with posX := -21/2, posY := 0 } : VehicleState).posX = 0 := by
      simp only [texU, pyInt, blackTex]
      norm_num
    have hv : texV blackTex
        ({ initialState with posX := -21/2, posY := 0 } : VehicleState).posY = 10 := by
      simp only [texV, pyInt, blackTex]
      norm_num
    simp only [is_car_on_track, hu, hv]
    rw [if_pos]
    · norm_num [blackTex, decide_eq_true_eq]
    · refine ⟨le_refl 0, ?_, by norm_num, ?_⟩ <;> norm_num [blackTex]

/-- Claim C3 (amended): the track check maps world coordinates with the
truncation toward zero performed by Python int; whenever the truncated
coordinates fall outside the texture bounds the position is classified
off-track independent of pixel content, and in particular a truncated u
of -1 is always classified off-track. -/
theorem track_mapping_truncation (tex : TrackSampler) (s : VehicleState) :
    texU tex s.posX = pyInt ((s.posX + 10) * ((tex.xSize : ℝ) / 20)) ∧
    (¬ (0 ≤ texU tex s.posX ∧ texU tex s.posX < (tex.xSize : ℤ) ∧
        0 ≤ texV tex s.posY ∧ texV tex s.posY < (tex.ySize : ℤ)) →
      (is_car_on_track (some tex) s).1 = false) ∧
    (texU tex s.posX = -1 → (is_car_on_track (some tex) s).1 = false) := by
  refine ⟨rfl, fun h => ?_, fun h => ?_⟩
  · simp only [is_car_on_track]
    rw [if_neg h]
  · simp only [is_car_on_track]
    rw [if_neg]
    intro hc
    rw [h] at hc
    exact absurd hc.1 (by norm_num)

lemma texU_blackTex_neg11 :
    texU blackTex
      ({ initialState with posX := -11, posY := 0 } : VehicleState).posX = -1 := by
  simp only [texU, pyInt, blackTex]
  norm_num [Int.ceil_eq_iff]

/-- Witness for the truncation theorem: a position whose truncated u is
-1 is classified off-track on the all-black sampler. -/
theorem track_mapping_truncation_witness :
    (is_car_on_track (some blackTex)
      { initialState with posX := -11, posY := 0 }).1 = false :=
  (track_mapping_truncation blackTex
    { initialState with posX := -11, posY := 0 }).2.2 texU_blackTex_neg11

end AutonomousCar
